import Mathlib

/-!
Shallow embedding of the taskbridge-mcp transport core
(internal/mcp/transport.go, internal/mcp/server.go, internal/cli/mcp.go).

Go maps are modelled as association lists with overwrite-on-insert;
Go's `map[string]any` option values are modelled opaquely as strings
(no claim inspects them, only whole-config equality matters).
Fallible Go functions returning `error` are modelled with
`Option String` (the error message, `none` = nil) or `Except String`.
External SDK / net-http outcomes are supplied through an explicit
environment record, and observable side effects (session connection,
HTTP handler construction, listener binding) are recorded as a trace.
-/

namespace TaskBridge

/-- Go: `type TransportType string` (server.go). -/
abbrev TransportType := String

/-- Go constant `TransportStdio = "stdio"`. -/
def TransportStdio : TransportType := "stdio"

/-- Go constant `TransportSSE = "sse"`. -/
def TransportSSE : TransportType := "sse"

/-- Go constant `TransportHTTP = "http"`. -/
def TransportHTTP : TransportType := "http"

/-- Go struct `TransportConfig` (transport.go lines 10-16).
`Options map[string]any` is modelled as an association list with opaque
(string) values. -/
structure TransportConfig where
  «Type» : TransportType
  Address : String
  Port : Int
  Timeout : Int
  Options : List (String × String)
deriving DecidableEq, Repr

/-- The Go zero value `TransportConfig{}`. -/
def TransportConfig.zero : TransportConfig :=
  { «Type» := "", Address := "", Port := 0, Timeout := 0, Options := [] }

/-- Lookup in an association list modelling a Go `map` read:
`config, exists := m[k]`. -/
def mapLookup (m : List (TransportType × TransportConfig)) (k : TransportType) :
    Option TransportConfig :=
  match m with
  | [] => none
  | (k', v) :: rest => if k' = k then some v else mapLookup rest k

/-- Association-list insert modelling a Go `map` write `m[k] = v`:
any existing entry for `k` is overwritten (last write wins). -/
def mapInsert (m : List (TransportType × TransportConfig)) (k : TransportType)
    (v : TransportConfig) : List (TransportType × TransportConfig) :=
  match m with
  | [] => [(k, v)]
  | (k', v') :: rest =>
    if k' = k then (k, v) :: rest else (k', v') :: mapInsert rest k v

/-- The keys of the association list, modelling Go's `for t := range m`
(order unspecified in Go; this model fixes insertion order, and claims
about `ListTransports` are stated up to set membership only). -/
def mapKeys (m : List (TransportType × TransportConfig)) : List TransportType :=
  m.map (fun p => p.1)

/-- Go struct `TransportManager` (transport.go lines 19-21). -/
structure TransportManager where
  transports : List (TransportType × TransportConfig)
deriving Repr

/-- Go `NewTransportManager` (transport.go lines 24-28). -/
def NewTransportManager : TransportManager :=
  { transports := [] }

/-- Go method `(tm *TransportManager) RegisterTransport(config)` (transport.go
lines 31-40). The pointer receiver is modelled by returning the updated
manager next to the `error` result. -/
def TransportManager.RegisterTransport (tm : TransportManager)
    (config : TransportConfig) : Option String × TransportManager :=
  if config.«Type» = "" then
    (some "transport type cannot be empty", tm)
  else
    (none, { transports := mapInsert tm.transports config.«Type» config })

/-- Go method `(tm *TransportManager) GetTransport(t)` (transport.go
lines 43-50). -/
def TransportManager.GetTransport (tm : TransportManager) (t : TransportType) :
    Except String TransportConfig :=
  match mapLookup tm.transports t with
  | some config => Except.ok config
  | none => Except.error ("transport not found: " ++ t)

/-- Go method `(tm *TransportManager) ListTransports()` (transport.go
lines 53-60). -/
def TransportManager.ListTransports (tm : TransportManager) : List TransportType :=
  mapKeys tm.transports

/-- Go `ValidateTransportType` (transport.go lines 63-70). -/
def ValidateTransportType (t : String) : Option String :=
  if t = TransportStdio ∨ t = TransportSSE ∨ t = TransportHTTP then
    none
  else
    some ("unsupported transport type: " ++ t ++ " (supported: stdio, sse, http)")

/-- The Go map literal `descriptions` inside `GetTransportDescription`
(transport.go lines 74-78). -/
def descriptions : List (TransportType × String) :=
  [(TransportStdio, "Standard input/output - Direct CLI communication"),
   (TransportSSE, "Server-Sent Events - Alternative HTTP streaming transport"),
   (TransportHTTP, "Streaming HTTP (RECOMMENDED) - Best performance, MCP community standard")]

/-- Go `GetTransportDescription` (transport.go lines 73-85). -/
def GetTransportDescription (t : TransportType) : String :=
  match descriptions.lookup t with
  | some desc => desc
  | none => "Unknown transport type"

/-- Go struct `TransportFeatures` (transport.go lines 88-95). -/
structure TransportFeatures where
  Name : String
  Description : String
  IsStreaming : Bool
  RequiresHTTP : Bool
  DefaultPort : Int
  Capabilities : List String
deriving DecidableEq, Repr

/-- The `TransportStdio` entry of the `features` map literal
(transport.go lines 100-106); `DefaultPort` is the omitted field's
Go zero value. -/
def stdioFeatures : TransportFeatures :=
  { Name := "Standard Input/Output"
    Description := "Direct CLI communication using stdin/stdout"
    IsStreaming := false
    RequiresHTTP := false
    DefaultPort := 0
    Capabilities := ["tools", "resources", "prompts", "sampling"] }

/-- The `TransportSSE` entry of the `features` map literal
(transport.go lines 107-114). -/
def sseFeatures : TransportFeatures :=
  { Name := "Server-Sent Events"
    Description := "Alternative HTTP-based streaming communication"
    IsStreaming := true
    RequiresHTTP := true
    DefaultPort := 8080
    Capabilities := ["tools", "resources", "prompts", "sampling"] }

/-- The `TransportHTTP` entry of the `features` map literal
(transport.go lines 115-122); the `Name` string ends in the exact
(mojibake) characters present in the source bytes. -/
def httpFeatures : TransportFeatures :=
  { Name := "Streaming HTTP (RECOMMENDED) ‚≠ê"
    Description := "Best performance streaming HTTP transport - MCP community standard"
    IsStreaming := true
    RequiresHTTP := true
    DefaultPort := 8080
    Capabilities := ["tools", "resources", "prompts", "sampling", "streaming"] }

/-- The default record returned for unknown types (transport.go
lines 129-133); omitted fields take Go zero values. -/
def unknownFeatures : TransportFeatures :=
  { Name := "Unknown"
    Description := "Unknown transport type"
    IsStreaming := false
    RequiresHTTP := false
    DefaultPort := 0
    Capabilities := [] }

/-- Go `GetTransportFeatures` (transport.go lines 98-134). -/
def GetTransportFeatures (t : TransportType) : TransportFeatures :=
  match [(TransportStdio, stdioFeatures),
         (TransportSSE, sseFeatures),
         (TransportHTTP, httpFeatures)].lookup t with
  | some f => f
  | none => unknownFeatures

/-- Go struct `config.Config` (internal/config/config.go line 12); only
`ServerPort` is read by the server core. -/
structure Config where
  ServerPort : Int
deriving DecidableEq, Repr

/-- Observable side effects of `Server.Run` and its helpers: connecting a
protocol session (stdio path), constructing an HTTP handler (sse/http
paths), and binding/starting a network listener (`ListenAndServe`). -/
inductive Effect where
  | connectSession
  | constructHTTPHandler (transportName : String)
  | bindListener (port : Int)
deriving DecidableEq, Repr

/-- Result of Go's `http.Server.ListenAndServe`: either the sentinel
`http.ErrServerClosed` (returned after `Shutdown`) or some other
listen/serve error. -/
inductive ListenError where
  | errServerClosed
  | other (msg : String)
deriving DecidableEq, Repr

/-- Outcomes of the external SDK and net/http calls that `Run` delegates
to, supplied as an explicit environment: the result of
`mcpServer.Connect`, of `session.Wait`, whether the caller-supplied
context was cancelled, and what `ListenAndServe` returned (`none`
models a nil error, which net/http never actually produces). -/
structure Env where
  connectResult : Option String
  sessionWaitResult : Option String
  ctxCancelled : Bool
  listenResult : Option ListenError
deriving DecidableEq, Repr

/-- net/http contract relating cancellation to the listener outcome:
`Shutdown` (triggered by the watcher goroutine when the context is
cancelled, server.go lines 158-164) makes `ListenAndServe` return
`http.ErrServerClosed`. This is external-library behaviour, not code of
this repository. -/
def EnvHTTPContract (env : Env) : Prop :=
  env.ctxCancelled = true → env.listenResult = some ListenError.errServerClosed

instance (env : Env) : Decidable (EnvHTTPContract env) := by
  unfold EnvHTTPContract; infer_instance

/-- Go struct `Server` (server.go lines 27-31); the `*mcp.Server` handle
is external SDK state carrying no data this core reads, so it is elided. -/
structure Server where
  config : Config
  transportType : TransportType
deriving DecidableEq, Repr

/-- Go `NewServer` (server.go lines 34-49): builds the protocol server,
registers the two tool handlers (SDK-side effects with no bearing on the
fields), and stores the config and transport type. -/
def NewServer (cfg : Config) (transportType : TransportType) : Server :=
  { config := cfg, transportType := transportType }

/-- Go `(s *Server) runStdio(ctx)` (server.go lines 120-142): connects a
session over the in-memory transport, then waits on it; either step's
error is returned, otherwise nil. -/
def Server.runStdio (_s : Server) (env : Env) : Option String × List Effect :=
  match env.connectResult with
  | some err => (some err, [Effect.connectSession])
  | none =>
    match env.sessionWaitResult with
    | some err => (some err, [Effect.connectSession])
    | none => (none, [Effect.connectSession])

/-- Go `(s *Server) runHTTPTransport(ctx, handler, transportName)`
(server.go lines 145-177): binds a listener on `config.ServerPort`;
`http.ErrServerClosed` (the expected result of the shutdown goroutine)
is treated as success, every other `ListenAndServe` error is returned. -/
def Server.runHTTPTransport (s : Server) (_transportName : String) (env : Env) :
    Option String × List Effect :=
  let port := s.config.ServerPort
  match env.listenResult with
  | none => (none, [Effect.bindListener port])
  | some ListenError.errServerClosed => (none, [Effect.bindListener port])
  | some (ListenError.other msg) => (some msg, [Effect.bindListener port])

/-- Go `(s *Server) runSSE(ctx)` (server.go lines 180-187): constructs the
SSE handler, then delegates to `runHTTPTransport`. -/
def Server.runSSE (s : Server) (env : Env) : Option String × List Effect :=
  let res := s.runHTTPTransport "SSE" env
  (res.1, Effect.constructHTTPHandler "SSE" :: res.2)

/-- Go `(s *Server) runHTTP(ctx)` (server.go lines 190-197): constructs
the streamable-HTTP handler, then delegates to `runHTTPTransport`. -/
def Server.runHTTP (s : Server) (env : Env) : Option String × List Effect :=
  let res := s.runHTTPTransport "HTTP" env
  (res.1, Effect.constructHTTPHandler "HTTP" :: res.2)

/-- Go `(s *Server) Run(ctx)` (server.go lines 106-117): switch on the
stored transport type; unknown values return an unsupported-transport
error at once. The post-state `Server` is returned first so that absence
of field mutation is a provable fact (no branch of the source assigns to
any field of `s`). -/
def Server.Run (s : Server) (env : Env) : Server × Option String × List Effect :=
  if s.transportType = TransportStdio then (s, s.runStdio env)
  else if s.transportType = TransportSSE then (s, s.runSSE env)
  else if s.transportType = TransportHTTP then (s, s.runHTTP env)
  else (s, some ("unsupported transport type: " ++ s.transportType), [])

/-- The transport list hard-coded in `serverListCmd` (internal/cli/mcp.go
lines 72-76). -/
def serverListTransports : List TransportType :=
  [TransportStdio, TransportSSE, TransportHTTP]

/-- Go's `fmt` rendering of a bool under `%v`. -/
def goBool (b : Bool) : String :=
  if b then "true" else "false"

/-- Go's `fmt` rendering of a `[]string` under `%v`. -/
def goStringSlice (xs : List String) : String :=
  "[" ++ String.intercalate " " xs ++ "]"

/-- The section `serverListCmd` writes for one transport (internal/cli/mcp.go
lines 82-96): name, description, flags, then default port and
capabilities when nonzero/nonempty. -/
def serverListSection (t : TransportType) : String :=
  let features := GetTransportFeatures t
  "\nTransport: " ++ features.Name ++ "\n"
    ++ "  Description: " ++ features.Description ++ "\n"
    ++ "  Streaming: " ++ goBool features.IsStreaming ++ "\n"
    ++ "  Requires HTTP: " ++ goBool features.RequiresHTTP ++ "\n"
    ++ (if features.DefaultPort ≠ 0 then
          "  Default Port: " ++ toString features.DefaultPort ++ "\n" else "")
    ++ (if features.Capabilities.length > 0 then
          "  Capabilities: " ++ goStringSlice features.Capabilities ++ "\n" else "")

/-- The separator banner of `serverListCmd`: a literal string of sixty
equals signs in the source. -/
def serverListSeparator : String :=
  String.mk (List.replicate 60 (Char.ofNat 61))

/-- The full output string of `server list` (internal/cli/mcp.go
lines 78-99). -/
def serverListOutput : String :=
  "Available MCP Transports:\n"
    ++ serverListSeparator ++ "\n"
    ++ String.join (serverListTransports.map serverListSection)
    ++ "\n" ++ serverListSeparator ++ "\n"

/-- A sequence of `RegisterTransport` calls starting from a fresh manager,
ignoring the per-call error results (a failed call leaves the manager as
it was). -/
def applyRegs (regs : List TransportConfig) : TransportManager :=
  regs.foldl (fun tm c => (tm.RegisterTransport c).2) NewTransportManager

/-- The example config of the spec: `{Type: sse, Port: 9090}`, remaining
fields at Go zero values. -/
def sampleSSE : TransportConfig :=
  { «Type» := "sse", Address := "", Port := 9090, Timeout := 0, Options := [] }

/-! ### Association-list lemmas -/

theorem mapLookup_insert_self (m : List (TransportType × TransportConfig))
    (k : TransportType) (v : TransportConfig) :
    mapLookup (mapInsert m k v) k = some v := by
  induction m with
  | nil => simp [mapInsert, mapLookup]
  | cons hd tl ih =>
    obtain ⟨k', v'⟩ := hd
    by_cases h : k' = k
    · simp [mapInsert, h, mapLookup]
    · simp [mapInsert, h, mapLookup, ih]

theorem mapInsert_cons_pos (tl : List (TransportType × TransportConfig))
    (k₀ k : TransportType) (v₀ v : TransportConfig) (h : k₀ = k) :
    mapInsert ((k₀, v₀) :: tl) k v = (k, v) :: tl := by
  simp only [mapInsert, if_pos h]

theorem mapInsert_cons_neg (tl : List (TransportType × TransportConfig))
    (k₀ k : TransportType) (v₀ v : TransportConfig) (h : ¬ k₀ = k) :
    mapInsert ((k₀, v₀) :: tl) k v = (k₀, v₀) :: mapInsert tl k v := by
  simp only [mapInsert, if_neg h]

theorem mapLookup_cons (tl : List (TransportType × TransportConfig))
    (k₀ k : TransportType) (v₀ : TransportConfig) :
    mapLookup ((k₀, v₀) :: tl) k
      = if k₀ = k then some v₀ else mapLookup tl k := rfl

theorem mapLookup_insert_ne (m : List (TransportType × TransportConfig))
    (k k' : TransportType) (v : TransportConfig) (h : k' ≠ k) :
    mapLookup (mapInsert m k v) k' = mapLookup m k' := by
  have hne : ¬ k = k' := fun he => h he.symm
  induction m with
  | nil =>
    show mapLookup [(k, v)] k' = mapLookup [] k'
    rw [mapLookup_cons, if_neg hne]
  | cons hd tl ih =>
    obtain ⟨k₀, v₀⟩ := hd
    by_cases h₀ : k₀ = k
    · subst h₀
      rw [mapInsert_cons_pos tl k₀ k₀ v₀ v rfl, mapLookup_cons, mapLookup_cons,
        if_neg hne, if_neg hne]
    · rw [mapInsert_cons_neg tl k₀ k v₀ v h₀, mapLookup_cons, mapLookup_cons, ih]

theorem mem_mapKeys_insert (m : List (TransportType × TransportConfig))
    (k t : TransportType) (v : TransportConfig) :
    t ∈ mapKeys (mapInsert m k v) ↔ t = k ∨ t ∈ mapKeys m := by
  induction m with
  | nil => simp [mapInsert, mapKeys]
  | cons hd tl ih =>
    obtain ⟨k₀, v₀⟩ := hd
    by_cases h₀ : k₀ = k
    · subst h₀
      rw [mapInsert_cons_pos tl k₀ k₀ v₀ v rfl]
      simp only [mapKeys, List.map_cons, List.mem_cons]
      tauto
    · rw [mapInsert_cons_neg tl k₀ k v₀ v h₀]
      simp only [mapKeys, List.map_cons, List.mem_cons]
      have ih' : t ∈ (mapInsert tl k v).map (fun p => p.1)
          ↔ t = k ∨ t ∈ tl.map (fun p => p.1) := ih
      tauto

theorem nodup_mapKeys_insert (m : List (TransportType × TransportConfig))
    (k : TransportType) (v : TransportConfig)
    (h : (mapKeys m).Nodup) : (mapKeys (mapInsert m k v)).Nodup := by
  induction m with
  | nil => simp [mapInsert, mapKeys]
  | cons hd tl ih =>
    obtain ⟨k₀, v₀⟩ := hd
    simp only [mapKeys, List.map_cons, List.nodup_cons] at h
    by_cases h₀ : k₀ = k
    · subst h₀
      rw [mapInsert_cons_pos tl k₀ k₀ v₀ v rfl]
      simp only [mapKeys, List.map_cons, List.nodup_cons]
      exact h
    · rw [mapInsert_cons_neg tl k₀ k v₀ v h₀]
      simp only [mapKeys, List.map_cons, List.nodup_cons]
      refine ⟨?_, ih h.2⟩
      intro hmem
      rcases (mem_mapKeys_insert tl k k₀ v).1 hmem with h₁ | h₁
      · exact h₀ h₁
      · exact h.1 h₁

/-! ### Registration-fold lemmas -/

theorem mem_listTransports_foldl (regs : List TransportConfig)
    (tm : TransportManager) (t : TransportType) :
    t ∈ (regs.foldl (fun tm c => (tm.RegisterTransport c).2) tm).ListTransports ↔
      t ∈ tm.ListTransports ∨ ∃ c ∈ regs, c.«Type» = t ∧ c.«Type» ≠ "" := by
  induction regs generalizing tm with
  | nil => simp
  | cons c regs ih =>
    simp only [List.foldl_cons, ih, List.mem_cons]
    by_cases hc : c.«Type» = ""
    · simp only [TransportManager.RegisterTransport, if_pos hc]
      constructor
      · rintro (h | h)
        · exact Or.inl h
        · exact Or.inr ⟨h.choose, ⟨Or.inr h.choose_spec.1, h.choose_spec.2⟩⟩
      · rintro (h | ⟨c', hc', ht, hne⟩)
        · exact Or.inl h
        · rcases hc' with rfl | hc'
          · exact absurd hc hne
          · exact Or.inr ⟨c', hc', ht, hne⟩
    · simp only [TransportManager.RegisterTransport, if_neg hc]
      have hkeys : t ∈ TransportManager.ListTransports
          ⟨mapInsert tm.transports c.«Type» c⟩ ↔
          t = c.«Type» ∨ t ∈ tm.ListTransports :=
        mem_mapKeys_insert tm.transports c.«Type» t c
      rw [hkeys]
      constructor
      · rintro ((rfl | h) | h)
        · exact Or.inr ⟨c, Or.inl rfl, rfl, hc⟩
        · exact Or.inl h
        · exact Or.inr ⟨h.choose, ⟨Or.inr h.choose_spec.1, h.choose_spec.2⟩⟩
      · rintro (h | ⟨c', hc', ht, hne⟩)
        · exact Or.inl (Or.inr h)
        · rcases hc' with rfl | hc'
          · exact Or.inl (Or.inl ht.symm)
          · exact Or.inr ⟨c', hc', ht, hne⟩

theorem nodup_listTransports_foldl (regs : List TransportConfig)
    (tm : TransportManager) (h : tm.ListTransports.Nodup) :
    (regs.foldl (fun tm c => (tm.RegisterTransport c).2) tm).ListTransports.Nodup := by
  induction regs generalizing tm with
  | nil => exact h
  | cons c regs ih =>
    simp only [List.foldl_cons]
    apply ih
    by_cases hc : c.«Type» = ""
    · simpa [TransportManager.RegisterTransport, if_pos hc] using h
    · simp only [TransportManager.RegisterTransport, if_neg hc]
      exact nodup_mapKeys_insert tm.transports c.«Type» c h

theorem getTransport_foldl_not_registered (regs : List TransportConfig)
    (tm : TransportManager) (t : TransportType)
    (h : ∀ c ∈ regs, c.«Type» ≠ t) :
    (regs.foldl (fun tm c => (tm.RegisterTransport c).2) tm).GetTransport t =
      tm.GetTransport t := by
  induction regs generalizing tm with
  | nil => rfl
  | cons c regs ih =>
    simp only [List.foldl_cons]
    rw [ih _ (fun c' hc' => h c' (List.mem_cons_of_mem _ hc'))]
    by_cases hc : c.«Type» = ""
    · simp [TransportManager.RegisterTransport, if_pos hc]
    · simp only [TransportManager.RegisterTransport, if_neg hc,
        TransportManager.GetTransport]
      rw [mapLookup_insert_ne tm.transports c.«Type» t c
        (fun he => h c (List.mem_cons_self c regs) he.symm)]

/-! ### Dispatch lemmas for `Server.Run` -/

theorem run_dispatch_stdio (s : Server) (env : Env)
    (h : s.transportType = TransportStdio) :
    s.Run env = (s, s.runStdio env) := by
  unfold Server.Run
  rw [h, if_pos rfl]

theorem run_dispatch_sse (s : Server) (env : Env)
    (h : s.transportType = TransportSSE) :
    s.Run env = (s, s.runSSE env) := by
  unfold Server.Run
  rw [h, if_neg (by decide : ¬ (TransportSSE = TransportStdio)), if_pos rfl]

theorem run_dispatch_http (s : Server) (env : Env)
    (h : s.transportType = TransportHTTP) :
    s.Run env = (s, s.runHTTP env) := by
  unfold Server.Run
  rw [h, if_neg (by decide : ¬ (TransportHTTP = TransportStdio)),
    if_neg (by decide : ¬ (TransportHTTP = TransportSSE)), if_pos rfl]

theorem run_dispatch_unsupported (s : Server) (env : Env)
    (h1 : s.transportType ≠ TransportStdio) (h2 : s.transportType ≠ TransportSSE)
    (h3 : s.transportType ≠ TransportHTTP) :
    s.Run env = (s, some ("unsupported transport type: " ++ s.transportType), []) := by
  unfold Server.Run
  rw [if_neg h1, if_neg h2, if_neg h3]

theorem runHTTPTransport_name_irrelevant (s : Server) (env : Env)
    (n n' : String) :
    s.runHTTPTransport n env = s.runHTTPTransport n' env := rfl

/-! ### Claims -/

/-- C1: for every transport type other than stdio, sse and http,
`Server.Run` returns the unsupported-transport error immediately, with an
empty effect trace: no session is connected, no HTTP handler is
constructed, and no network listener is bound. -/
theorem run_unsupported_transport_fails_fast (s : Server) (env : Env)
    (h1 : s.transportType ≠ TransportStdio) (h2 : s.transportType ≠ TransportSSE)
    (h3 : s.transportType ≠ TransportHTTP) :
    s.Run env = (s, some ("unsupported transport type: " ++ s.transportType), []) :=
  run_dispatch_unsupported s env h1 h2 h3

/-- Witness for C1 at the concrete transport type `"grpc"`. -/
theorem run_unsupported_transport_fails_fast_witness :
    Server.Run { config := { ServerPort := 8080 }, transportType := "grpc" }
        { connectResult := none, sessionWaitResult := none,
          ctxCancelled := false, listenResult := none }
      = ({ config := { ServerPort := 8080 }, transportType := "grpc" },
         some ("unsupported transport type: " ++ "grpc"), []) :=
  run_unsupported_transport_fails_fast _ _ (by decide) (by decide) (by decide)

/-- C2: after a successful `RegisterTransport c`, `GetTransport c.Type`
returns exactly `c` (for any prior registry contents, so the most recent
registration wins), and in particular registering `c'` of the same type
and then `c` yields `c` with no field merging. -/
theorem registerTransport_roundTrip_lastWriteWins (tm : TransportManager)
    (c c' : TransportConfig) (h : c.«Type» ≠ "") (h' : c'.«Type» = c.«Type») :
    (tm.RegisterTransport c).1 = none
    ∧ (tm.RegisterTransport c).2.GetTransport c.«Type» = Except.ok c
    ∧ ((tm.RegisterTransport c').2.RegisterTransport c).2.GetTransport c.«Type»
        = Except.ok c := by
  have hreg : ∀ tm₀ : TransportManager,
      (tm₀.RegisterTransport c).2.GetTransport c.«Type» = Except.ok c := by
    intro tm₀
    simp only [TransportManager.RegisterTransport, if_neg h,
      TransportManager.GetTransport, mapLookup_insert_self]
  refine ⟨?_, hreg tm, hreg _⟩
  simp only [TransportManager.RegisterTransport, if_neg h]

/-- Witness for C2: register `{Type: sse, Port: 1}` then `sampleSSE` on a
fresh manager; the lookup returns `sampleSSE`. -/
theorem registerTransport_roundTrip_lastWriteWins_witness :
    (NewTransportManager.RegisterTransport sampleSSE).1 = none
    ∧ (NewTransportManager.RegisterTransport sampleSSE).2.GetTransport
        sampleSSE.«Type» = Except.ok sampleSSE
    ∧ ((NewTransportManager.RegisterTransport
          { «Type» := "sse", Address := "", Port := 1, Timeout := 0,
            Options := [] }).2.RegisterTransport sampleSSE).2.GetTransport
        sampleSSE.«Type» = Except.ok sampleSSE :=
  registerTransport_roundTrip_lastWriteWins NewTransportManager sampleSSE
    { «Type» := "sse", Address := "", Port := 1, Timeout := 0, Options := [] }
    (by decide) (by decide)

/-- C4: `RegisterTransport` returns an error exactly when the config's
`Type` field is the empty string. -/
theorem registerTransport_error_iff_empty_type (tm : TransportManager)
    (c : TransportConfig) :
    (tm.RegisterTransport c).1.isSome = true ↔ c.«Type» = "" := by
  by_cases h : c.«Type» = ""
  · simp [TransportManager.RegisterTransport, h]
  · simp [TransportManager.RegisterTransport, h]

/-- C10: a failed `RegisterTransport` (empty `Type`) leaves the registry
unchanged: the manager state, every `GetTransport` result and the
`ListTransports` result are exactly as before the call. -/
theorem registerTransport_failure_leaves_registry (tm : TransportManager)
    (c : TransportConfig) (t : TransportType) (h : c.«Type» = "") :
    (tm.RegisterTransport c).1 = some "transport type cannot be empty"
    ∧ (tm.RegisterTransport c).2 = tm
    ∧ (tm.RegisterTransport c).2.GetTransport t = tm.GetTransport t
    ∧ (tm.RegisterTransport c).2.ListTransports = tm.ListTransports := by
  simp [TransportManager.RegisterTransport, h]

/-- Witness for C10: a failed registration of `TransportConfig.zero` on a
manager already holding `sampleSSE` changes nothing. -/
theorem registerTransport_failure_leaves_registry_witness :
    ((NewTransportManager.RegisterTransport sampleSSE).2.RegisterTransport
        TransportConfig.zero).1 = some "transport type cannot be empty"
    ∧ ((NewTransportManager.RegisterTransport sampleSSE).2.RegisterTransport
        TransportConfig.zero).2 = (NewTransportManager.RegisterTransport sampleSSE).2
    ∧ ((NewTransportManager.RegisterTransport sampleSSE).2.RegisterTransport
        TransportConfig.zero).2.GetTransport TransportSSE
        = (NewTransportManager.RegisterTransport sampleSSE).2.GetTransport TransportSSE
    ∧ ((NewTransportManager.RegisterTransport sampleSSE).2.RegisterTransport
        TransportConfig.zero).2.ListTransports
        = (NewTransportManager.RegisterTransport sampleSSE).2.ListTransports :=
  registerTransport_failure_leaves_registry
    (NewTransportManager.RegisterTransport sampleSSE).2
    TransportConfig.zero TransportSSE (by decide)

/-- C5: `GetTransport t` on a manager built by any sequence of
registrations none of which had type `t` returns the not-found error; in
particular, after registering only an sse-typed config, `GetTransport sse`
succeeds with that config while `GetTransport http` fails. -/
theorem getTransport_unregistered_not_found (regs : List TransportConfig)
    (t : TransportType) (c : TransportConfig)
    (h : ∀ c' ∈ regs, c'.«Type» ≠ t) (hc : c.«Type» = TransportSSE) :
    (applyRegs regs).GetTransport t
      = Except.error ("transport not found: " ++ t)
    ∧ (applyRegs [c]).GetTransport TransportSSE = Except.ok c
    ∧ (applyRegs [c]).GetTransport TransportHTTP
        = Except.error ("transport not found: " ++ TransportHTTP) := by
  refine ⟨?_, ?_, ?_⟩
  · rw [show applyRegs regs
        = regs.foldl (fun tm c => (tm.RegisterTransport c).2) NewTransportManager
        from rfl]
    rw [getTransport_foldl_not_registered regs NewTransportManager t h]
    rfl
  · have hne : c.«Type» ≠ "" := by rw [hc]; decide
    simp only [applyRegs, List.foldl_cons, List.foldl_nil,
      TransportManager.RegisterTransport, if_neg hne,
      TransportManager.GetTransport, NewTransportManager, ← hc,
      mapLookup_insert_self]
  · have hne : c.«Type» ≠ "" := by rw [hc]; decide
    simp only [applyRegs, List.foldl_cons, List.foldl_nil,
      TransportManager.RegisterTransport, if_neg hne,
      TransportManager.GetTransport, NewTransportManager]
    rw [mapLookup_insert_ne [] c.«Type» TransportHTTP c
      (by rw [hc]; decide)]
    rfl

/-- Witness for C5 at `regs = [sampleSSE]`, `t = http`, `c = sampleSSE`. -/
theorem getTransport_unregistered_not_found_witness :
    (applyRegs [sampleSSE]).GetTransport TransportHTTP
      = Except.error ("transport not found: " ++ TransportHTTP)
    ∧ (applyRegs [sampleSSE]).GetTransport TransportSSE = Except.ok sampleSSE
    ∧ (applyRegs [sampleSSE]).GetTransport TransportHTTP
        = Except.error ("transport not found: " ++ TransportHTTP) :=
  getTransport_unregistered_not_found [sampleSSE] TransportHTTP sampleSSE
    (by decide) (by decide)

/-- C6: `ListTransports` holds, as a set, exactly the successfully
registered transport types, each distinct type exactly once (so
re-registering a type does not grow the list). -/
theorem listTransports_registered_set (regs : List TransportConfig)
    (t : TransportType) :
    (t ∈ (applyRegs regs).ListTransports
      ↔ ∃ c ∈ regs, c.«Type» = t ∧ c.«Type» ≠ "")
    ∧ ((applyRegs regs).ListTransports).Nodup := by
  constructor
  · have h := mem_listTransports_foldl regs NewTransportManager t
    rw [show applyRegs regs
        = regs.foldl (fun tm c => (tm.RegisterTransport c).2) NewTransportManager
        from rfl]
    rw [h]
    have : t ∉ NewTransportManager.ListTransports := by
      simp [NewTransportManager, TransportManager.ListTransports, mapKeys]
    tauto
  · exact nodup_listTransports_foldl regs NewTransportManager
      (by simp [NewTransportManager, TransportManager.ListTransports, mapKeys])

/-- C3: for an HTTP-based transport (sse or http), under the net/http
shutdown contract, cancelling the caller's context makes `Run` return nil
(the expected server-closed condition is treated as success), while any
other listen/serve error is returned to the caller. -/
theorem run_http_cancel_graceful (s : Server) (env : Env)
    (htr : s.transportType = TransportSSE ∨ s.transportType = TransportHTTP)
    (hc : EnvHTTPContract env) :
    (env.ctxCancelled = true → (s.Run env).2.1 = none)
    ∧ (∀ msg, env.listenResult = some (ListenError.other msg) →
        (s.Run env).2.1 = some msg) := by
  have hres : (s.Run env).2.1 = (s.runHTTPTransport "SSE" env).1 := by
    rcases htr with h | h
    · rw [run_dispatch_sse s env h]
      rfl
    · rw [run_dispatch_http s env h]
      rfl
  constructor
  · intro hcanc
    have hl := hc hcanc
    rw [hres]
    simp [Server.runHTTPTransport, hl]
  · intro msg hmsg
    rw [hres]
    simp [Server.runHTTPTransport, hmsg]

/-- Witness for C3: an sse server whose context is cancelled (so
`ListenAndServe` returned `ErrServerClosed`) yields a nil result from
`Run`. -/
theorem run_http_cancel_graceful_witness :
    (Server.Run { config := { ServerPort := 8080 }, transportType := "sse" }
        { connectResult := none, sessionWaitResult := none,
          ctxCancelled := true,
          listenResult := some ListenError.errServerClosed }).2.1 = none :=
  (run_http_cancel_graceful _ _ (Or.inl rfl) (by decide)).1 rfl

/-- C7: the metadata functions are total pure functions of the transport
type: each of stdio, sse and http maps to its fixed static record, and
every other type maps to the placeholder (description
"Unknown transport type"; features with Name "Unknown" and empty
capability list) without failing. -/
theorem transport_metadata_total (t : TransportType)
    (h1 : t ≠ TransportStdio) (h2 : t ≠ TransportSSE) (h3 : t ≠ TransportHTTP) :
    GetTransportDescription TransportStdio
        = "Standard input/output - Direct CLI communication"
    ∧ GetTransportDescription TransportSSE
        = "Server-Sent Events - Alternative HTTP streaming transport"
    ∧ GetTransportDescription TransportHTTP
        = "Streaming HTTP (RECOMMENDED) - Best performance, MCP community standard"
    ∧ GetTransportFeatures TransportStdio = stdioFeatures
    ∧ GetTransportFeatures TransportSSE = sseFeatures
    ∧ GetTransportFeatures TransportHTTP = httpFeatures
    ∧ GetTransportDescription t = "Unknown transport type"
    ∧ GetTransportFeatures t = unknownFeatures
    ∧ unknownFeatures.Name = "Unknown"
    ∧ unknownFeatures.Capabilities = ([] : List String) := by
  have b1 : (t == TransportStdio) = false := beq_eq_false_iff_ne.2 h1
  have b2 : (t == TransportSSE) = false := beq_eq_false_iff_ne.2 h2
  have b3 : (t == TransportHTTP) = false := beq_eq_false_iff_ne.2 h3
  refine ⟨by decide, by decide, by decide, by decide, by decide, by decide,
    ?_, ?_, rfl, rfl⟩
  · simp [GetTransportDescription, descriptions, List.lookup_cons, b1, b2, b3]
  · simp [GetTransportFeatures, List.lookup_cons, b1, b2, b3]

/-- Witness for C7 at the concrete unknown type `"grpc"`. -/
theorem transport_metadata_total_witness :
    GetTransportDescription "grpc" = "Unknown transport type"
    ∧ GetTransportFeatures "grpc" = unknownFeatures :=
  ⟨(transport_metadata_total "grpc" (by decide) (by decide) (by decide)).2.2.2.2.2.2.1,
   (transport_metadata_total "grpc" (by decide) (by decide) (by decide)).2.2.2.2.2.2.2.1⟩

/-- C8: `server list` enumerates exactly the three known transports
(stdio, sse, http), each once, and each printed description (the
`Description` field of its `TransportFeatures` record) is non-empty. -/
theorem serverList_three_transports (u : TransportType) :
    (u ∈ serverListTransports
      ↔ (u = TransportStdio ∨ u = TransportSSE ∨ u = TransportHTTP))
    ∧ serverListTransports.Nodup
    ∧ serverListTransports.length = 3
    ∧ (∀ t ∈ serverListTransports, (GetTransportFeatures t).Description ≠ "") := by
  refine ⟨?_, by decide, rfl, ?_⟩
  · simp [serverListTransports]
  · intro t ht
    simp only [serverListTransports, List.mem_cons, List.not_mem_nil,
      or_false] at ht
    rcases ht with h | h | h
    · rw [h]; decide
    · rw [h]; decide
    · rw [h]; decide

/-- Witness for C8 at `u = stdio`, checking stdio's printed description is
non-empty. -/
theorem serverList_three_transports_witness :
    (GetTransportFeatures TransportStdio).Description ≠ "" :=
  (serverList_three_transports TransportStdio).2.2.2 TransportStdio
    (by decide)

/-- C9: the transport type is fixed at construction (`NewServer` stores
it, `Run` leaves every field of the server untouched) and `Run` dispatches
solely on that stored value: each branch is determined by
`s.transportType`, so exactly one transport runs for the server's
lifetime. -/
theorem server_transportType_immutable (cfg : Config) (t : TransportType)
    (s : Server) (env : Env) :
    (NewServer cfg t).transportType = t
    ∧ (s.Run env).1 = s
    ∧ (s.transportType = TransportStdio → s.Run env = (s, s.runStdio env))
    ∧ (s.transportType = TransportSSE → s.Run env = (s, s.runSSE env))
    ∧ (s.transportType = TransportHTTP → s.Run env = (s, s.runHTTP env))
    ∧ (s.transportType ≠ TransportStdio → s.transportType ≠ TransportSSE →
        s.transportType ≠ TransportHTTP →
        s.Run env
          = (s, some ("unsupported transport type: " ++ s.transportType), [])) := by
  refine ⟨rfl, ?_, run_dispatch_stdio s env, run_dispatch_sse s env,
    run_dispatch_http s env, run_dispatch_unsupported s env⟩
  by_cases h1 : s.transportType = TransportStdio
  · rw [run_dispatch_stdio s env h1]
  · by_cases h2 : s.transportType = TransportSSE
    · rw [run_dispatch_sse s env h2]
    · by_cases h3 : s.transportType = TransportHTTP
      · rw [run_dispatch_http s env h3]
      · rw [run_dispatch_unsupported s env h1 h2 h3]

/-- Witness for C9 at a concrete stdio server: construction stores the
type, `Run` leaves the server unchanged and takes the stdio branch. -/
theorem server_transportType_immutable_witness :
    (NewServer { ServerPort := 8080 } TransportStdio).transportType
        = TransportStdio
    ∧ ((NewServer { ServerPort := 8080 } TransportStdio).Run
        { connectResult := none, sessionWaitResult := none,
          ctxCancelled := false, listenResult := none }).1
        = NewServer { ServerPort := 8080 } TransportStdio
    ∧ (NewServer { ServerPort := 8080 } TransportStdio).Run
        { connectResult := none, sessionWaitResult := none,
          ctxCancelled := false, listenResult := none }
        = (NewServer { ServerPort := 8080 } TransportStdio,
           (NewServer { ServerPort := 8080 } TransportStdio).runStdio
             { connectResult := none, sessionWaitResult := none,
               ctxCancelled := false, listenResult := none }) := by
  obtain ⟨a, b, c, -, -, -⟩ :=
    server_transportType_immutable { ServerPort := 8080 } TransportStdio
      (NewServer { ServerPort := 8080 } TransportStdio)
      { connectResult := none, sessionWaitResult := none,
        ctxCancelled := false, listenResult := none }
  exact ⟨a, b, c rfl⟩

end TaskBridge
